import Mathlib

/-!
Shallow embedding of the world-generation core of the voxel engine
(`src/logic/scripting/scripting_world_generation.cpp`): the layer/biome
data model, the definition loader (`load_layer`, `load_layers`,
`load_biome`, `scripting::load_generator`), and the scripted generator
(`LuaGeneratorScript::generateHeightmap`, `LuaGeneratorScript::prepare`).

Lua-engine marshalling primitives (field reads, stack pushes) are outside
the analyzed slice; raw definition data is therefore modelled as already
typed records.  Machine integers: `uint` accumulation in `load_layers`
is modelled as `Nat` with explicit reduction modulo `2^32`; `float`
biome-parameter components are only stored, never computed with, so they
are modelled as `Rat`.
-/

namespace VoxelGen

/-- One axis of a biome's position in parameter space
(`BiomeParameter { float value; float weight; }`); the loader only stores
the two components, so `Rat` stands in for `float`. -/
structure BiomeParameter where
  value : Rat
  weight : Rat
  deriving DecidableEq

/-- A loaded layer (`BlocksLayer { name, height, belowSeaLevel, rt }`);
`rtId` models `rt.id`, unset (`none`) until `prepare` resolves it. -/
structure BlocksLayer where
  block : String
  height : Int
  belowSeaLevel : Bool
  rtId : Option Nat
  deriving DecidableEq

/-- A loaded layer stack (`BlocksLayers { layers, lastLayersHeight }`);
`lastLayersHeight` is the C++ `uint` accumulator, kept below `2^32`. -/
structure BlocksLayers where
  layers : List BlocksLayer
  lastLayersHeight : Nat
  deriving DecidableEq

/-- A loaded biome (`Biome { name, parameters, groundLayers, seaLayers }`). -/
structure Biome where
  name : String
  parameters : List BiomeParameter
  groundLayers : BlocksLayers
  seaLayers : BlocksLayers
  deriving DecidableEq

/-- Modelled from the spec: the `Heightmap` class itself is outside the
analyzed source slice; the spec describes it as a 2-D grid of
`size.x * size.y` elevation samples, and the default-constructed map
(`Heightmap(size.x, size.y)`) as holding every sample at the neutral
baseline value, written `0` here. -/
structure Heightmap where
  width : Nat
  height : Nat
  values : List Int
  deriving DecidableEq

/-- The default heightmap `Heightmap(w, h)`: `w * h` samples at the
neutral baseline. -/
def defaultHeightmap (w h : Nat) : Heightmap :=
  { width := w, height := h, values := List.replicate (w * h) 0 }

/-- The bound script environment, as `generateHeightmap` observes it: an
optional `generate_heightmap` entry point taking the region offset, the
region size and the seed; `none` as the inner result models a scripting
error inside `lua::call_nothrow`. -/
structure ScriptEnv where
  generate_heightmap : Option ((Int × Int) → (Nat × Nat) → Nat → Option Heightmap)

/-- State of a `LuaGeneratorScript` instance (its four fields). -/
structure LuaGeneratorScript where
  env : ScriptEnv
  biomes : List Biome
  biomeParameters : Nat
  seaLevel : Nat

/-- `LuaGeneratorScript::generateHeightmap(offset, size, seed)`: if the
environment has a `generate_heightmap` entry point and its invocation
succeeds, the returned map is unwrapped; otherwise (absent entry point,
or `lua::call_nothrow` reporting failure) a default `Heightmap(size.x,
size.y)` is returned.  The method only reads the object, so the state is
threaded through unchanged. -/
def generateHeightmap (g : LuaGeneratorScript) (offset : Int × Int)
    (size : Nat × Nat) (seed : Nat) : Heightmap × LuaGeneratorScript :=
  match g.env.generate_heightmap with
  | some f =>
    match f offset size seed with
    | some map => (map, g)
    | none => (defaultHeightmap size.1 size.2, g)
  | none => (defaultHeightmap size.1 size.2, g)

/-- Claim C1: `generateHeightmap` is a deterministic function of the
generator state, the offset, the size and the seed: a call leaves the
generator state unchanged, and a second call with identical arguments
yields an identical heightmap. -/
theorem generateHeightmap_deterministic (g : LuaGeneratorScript)
    (offset : Int × Int) (size : Nat × Nat) (seed : Nat) :
    (generateHeightmap g offset size seed).2 = g ∧
    (generateHeightmap ((generateHeightmap g offset size seed).2)
        offset size seed).1 =
      (generateHeightmap g offset size seed).1 := by
  have hstate : (generateHeightmap g offset size seed).2 = g := by
    rcases hE : g.env.generate_heightmap with _ | f
    · simp [generateHeightmap, hE]
    · rcases hF : f offset size seed with _ | m <;>
        simp [generateHeightmap, hE, hF]
  exact ⟨hstate, by rw [hstate]⟩

/-- Claim C6: when the `generate_heightmap` entry point is absent from
the bound environment, or its invocation fails, `generateHeightmap`
returns the default heightmap of exactly `size.x * size.y` samples, all
at the neutral baseline, and raises nothing (the embedding is total). -/
theorem generateHeightmap_default (g : LuaGeneratorScript)
    (offset : Int × Int) (size : Nat × Nat) (seed : Nat)
    (h : g.env.generate_heightmap = none ∨
      ∃ f, g.env.generate_heightmap = some f ∧ f offset size seed = none) :
    (generateHeightmap g offset size seed).1 = defaultHeightmap size.1 size.2 ∧
    (generateHeightmap g offset size seed).1.values =
      List.replicate (size.1 * size.2) 0 := by
  have hmap : (generateHeightmap g offset size seed).1 =
      defaultHeightmap size.1 size.2 := by
    rcases h with h | ⟨f, hf, hcall⟩
    · simp [generateHeightmap, h]
    · simp [generateHeightmap, hf, hcall]
  exact ⟨hmap, by rw [hmap]; rfl⟩

def c6Generator : LuaGeneratorScript :=
  { env := ⟨none⟩, biomes := [], biomeParameters := 0, seaLevel := 0 }

/-- Witness for C6 at a concrete generator with no scripted entry point
and a 2-by-3 region. -/
theorem generateHeightmap_default_witness :
    (generateHeightmap c6Generator (4, -7) (2, 3) 12345).1 =
      defaultHeightmap 2 3 ∧
    (generateHeightmap c6Generator (4, -7) (2, 3) 12345).1.values =
      List.replicate (2 * 3) 0 :=
  generateHeightmap_default c6Generator (4, -7) (2, 3) 12345 (Or.inl rfl)

instance exceptDecEq {ε α : Type} [DecidableEq ε] [DecidableEq α] :
    DecidableEq (Except ε α)
  | Except.error a, Except.error b =>
    if h : a = b then Decidable.isTrue (by rw [h])
    else Decidable.isFalse (by intro hc; injection hc; contradiction)
  | Except.error _, Except.ok _ =>
    Decidable.isFalse (fun hc => Except.noConfusion hc)
  | Except.ok _, Except.error _ =>
    Decidable.isFalse (fun hc => Except.noConfusion hc)
  | Except.ok a, Except.ok b =>
    if h : a = b then Decidable.isTrue (by rw [h])
    else Decidable.isFalse (by intro hc; injection hc; contradiction)

/-! ### Layer loading (`load_layer`, `load_layers`) -/

/-- A raw layer entry as the loader reads it from the definition table:
`block` from `require_string_field`, `height` from
`require_integer_field`, `belowSeaLevel` from
`get_boolean_field(.., "below_sea_level", true)` (already defaulted). -/
structure RawLayer where
  block : String
  height : Int
  belowSeaLevel : Bool
  deriving DecidableEq

/-- The C++ `uint` accumulation `lastLayersHeight += height`: the `int`
height is converted to `uint` and added modulo `2^32`. -/
def addUint32 (a : Nat) (h : Int) : Nat :=
  (((a : Int) + h) % 4294967296).toNat

/-- `load_layer(L, idx, lastLayersHeight, hasResizeableLayer)`: when an
elastic layer has already been seen the height is added to the
accumulator first; then a second `height == -1` entry is rejected with
`"only one resizeable layer allowed"`.  The two reference parameters are
threaded as explicit state. -/
def load_layer (e : RawLayer) (lastLayersHeight : Nat)
    (hasResizeableLayer : Bool) :
    Except String (BlocksLayer × Nat × Bool) :=
  let llh :=
    if hasResizeableLayer then addUint32 lastLayersHeight e.height
    else lastLayersHeight
  if e.height = -1 then
    if hasResizeableLayer then
      Except.error "only one resizeable layer allowed"
    else
      Except.ok (⟨e.block, e.height, e.belowSeaLevel, none⟩, llh, true)
  else
    Except.ok (⟨e.block, e.height, e.belowSeaLevel, none⟩, llh, hasResizeableLayer)

/-- The loop body of `load_layers`: entries are visited in order with the
1-based index `i`; a `load_layer` failure is rethrown as
`fieldname #i: cause` and aborts the loop. -/
def load_layers_go (fn : String) :
    List RawLayer → Nat → Nat → Bool →
    Except String (List BlocksLayer × Nat)
  | [], _, llh, _ => Except.ok ([], llh)
  | e :: rest, i, llh, hrl =>
    match load_layer e llh hrl with
    | Except.error msg =>
      Except.error (fn ++ " #" ++ toString i ++ ": " ++ msg)
    | Except.ok (l, llh1, hrl1) =>
      match load_layers_go fn rest (i + 1) llh1 hrl1 with
      | Except.error msg => Except.error msg
      | Except.ok (ls, llhFin) => Except.ok (l :: ls, llhFin)

/-- `load_layers(L, fieldname)`: a missing field (`lua::getfield`
returning false) yields an empty stack with accumulator `0`; otherwise
the entries are loaded in order starting from index 1 with both state
variables initialized per call. -/
def load_layers (fn : String) (field : Option (List RawLayer)) :
    Except String BlocksLayers :=
  match field with
  | none => Except.ok ⟨[], 0⟩
  | some entries =>
    match load_layers_go fn entries 1 0 false with
    | Except.error msg => Except.error msg
    | Except.ok (ls, llh) => Except.ok ⟨ls, llh⟩

/-- 1-based positions (starting from `i`) of the elastic entries
(`height == -1`) of a raw layer list. -/
def elasticIdxsFrom (i : Nat) : List RawLayer → List Nat
  | [] => []
  | e :: rest =>
    if e.height = -1 then i :: elasticIdxsFrom (i + 1) rest
    else elasticIdxsFrom (i + 1) rest

/-- 1-based positions of the elastic entries of a raw layer list. -/
def elasticIdxs (entries : List RawLayer) : List Nat :=
  elasticIdxsFrom 1 entries

/-- The heights of the entries strictly after the first elastic entry
(empty when there is no elastic entry). -/
def afterFirstElastic : List RawLayer → List Int
  | [] => []
  | e :: rest =>
    if e.height = -1 then rest.map RawLayer.height
    else afterFirstElastic rest

/-! ### Behaviour of the layer-loading loop -/

lemma go_err_first (fn : String) (entries : List RawLayer) :
    ∀ (i llh j : Nat) (tl : List Nat),
    elasticIdxsFrom i entries = j :: tl →
    load_layers_go fn entries i llh true =
      Except.error (fn ++ " #" ++ toString j ++ ": " ++
        "only one resizeable layer allowed") := by
  induction entries with
  | nil => intro i llh j tl h; simp [elasticIdxsFrom] at h
  | cons e rest ih =>
    intro i llh j tl h
    by_cases he : e.height = -1
    · rw [elasticIdxsFrom, if_pos he] at h
      injection h with h1 _
      subst h1
      simp [load_layers_go, load_layer, he]
    · rw [elasticIdxsFrom, if_neg he] at h
      have hrec := ih (i + 1) (addUint32 llh e.height) j tl h
      simp [load_layers_go, load_layer, he, hrec]

lemma go_err_second (fn : String) (entries : List RawLayer) :
    ∀ (i llh j1 j2 : Nat) (tl : List Nat),
    elasticIdxsFrom i entries = j1 :: j2 :: tl →
    load_layers_go fn entries i llh false =
      Except.error (fn ++ " #" ++ toString j2 ++ ": " ++
        "only one resizeable layer allowed") := by
  induction entries with
  | nil => intro i llh j1 j2 tl h; simp [elasticIdxsFrom] at h
  | cons e rest ih =>
    intro i llh j1 j2 tl h
    by_cases he : e.height = -1
    · rw [elasticIdxsFrom, if_pos he] at h
      injection h with _ h2
      have hrec := go_err_first fn rest (i + 1) llh j2 tl h2
      simp [load_layers_go, load_layer, he, hrec]
    · rw [elasticIdxsFrom, if_neg he] at h
      have hrec := ih (i + 1) llh j1 j2 tl h
      simp [load_layers_go, load_layer, he, hrec]

lemma go_ok_true (fn : String) (entries : List RawLayer) :
    ∀ (i llh : Nat), elasticIdxsFrom i entries = [] →
    ∃ ls, load_layers_go fn entries i llh true =
      Except.ok (ls, List.foldl addUint32 llh (entries.map RawLayer.height)) := by
  induction entries with
  | nil => intro i llh _; exact ⟨[], rfl⟩
  | cons e rest ih =>
    intro i llh h
    by_cases he : e.height = -1
    · rw [elasticIdxsFrom, if_pos he] at h
      exact absurd h (by simp)
    · rw [elasticIdxsFrom, if_neg he] at h
      obtain ⟨ls, hls⟩ := ih (i + 1) (addUint32 llh e.height) h
      refine ⟨⟨e.block, e.height, e.belowSeaLevel, none⟩ :: ls, ?_⟩
      simp [load_layers_go, load_layer, he, hls]

lemma go_ok_false (fn : String) (entries : List RawLayer) :
    ∀ (i llh : Nat), (elasticIdxsFrom i entries).length ≤ 1 →
    ∃ ls, load_layers_go fn entries i llh false =
      Except.ok (ls, List.foldl addUint32 llh (afterFirstElastic entries)) := by
  induction entries with
  | nil => intro i llh _; exact ⟨[], rfl⟩
  | cons e rest ih =>
    intro i llh h
    by_cases he : e.height = -1
    · rw [elasticIdxsFrom, if_pos he] at h
      have hrest : elasticIdxsFrom (i + 1) rest = [] := by
        cases hE : elasticIdxsFrom (i + 1) rest with
        | nil => rfl
        | cons a l => rw [hE] at h; simp at h
      obtain ⟨ls, hls⟩ := go_ok_true fn rest (i + 1) llh hrest
      refine ⟨⟨e.block, e.height, e.belowSeaLevel, none⟩ :: ls, ?_⟩
      simp [load_layers_go, load_layer, he, hls, afterFirstElastic]
    · rw [elasticIdxsFrom, if_neg he] at h
      obtain ⟨ls, hls⟩ := ih (i + 1) llh h
      refine ⟨⟨e.block, e.height, e.belowSeaLevel, none⟩ :: ls, ?_⟩
      simp [load_layers_go, load_layer, he, hls, afterFirstElastic]

lemma go_ok_llh (fn : String) (entries : List RawLayer) (i llh : Nat)
    (ls : List BlocksLayer) (v : Nat)
    (h : load_layers_go fn entries i llh false = Except.ok (ls, v)) :
    v = List.foldl addUint32 llh (afterFirstElastic entries) := by
  have hlen : (elasticIdxsFrom i entries).length ≤ 1 := by
    by_contra hlen
    cases hE : elasticIdxsFrom i entries with
    | nil => rw [hE] at hlen; simp at hlen
    | cons j1 tl1 =>
      cases tl1 with
      | nil => rw [hE] at hlen; simp at hlen
      | cons j2 tl2 =>
        have herr := go_err_second fn entries i llh j1 j2 tl2 hE
        rw [herr] at h
        exact Except.noConfusion h
  obtain ⟨ls', hls'⟩ := go_ok_false fn entries i llh hlen
  rw [hls'] at h
  injection h with hpair
  injection hpair with _ hv
  exact hv.symm

lemma foldl_addUint32_eq :
    ∀ (hs : List Int) (a : Nat), a < 4294967296 →
    ((List.foldl addUint32 a hs : Nat) : Int) =
      ((a : Int) + hs.sum) % 4294967296 := by
  intro hs
  induction hs with
  | nil =>
    intro a ha
    simp only [List.foldl_nil, List.sum_nil, add_zero]
    omega
  | cons h t ih =>
    intro a ha
    rw [List.foldl_cons, List.sum_cons]
    have hlt : addUint32 a h < 4294967296 := by unfold addUint32; omega
    rw [ih (addUint32 a h) hlt]
    unfold addUint32
    rw [Int.toNat_of_nonneg (Int.emod_nonneg _ (by norm_num))]
    omega

/-! ### Claims about `load_layers` -/

/-- Claim C2: a raw layer list with two (or more) elastic entries fails
with an error carrying the enclosing field name and the 1-based index of
the second elastic entry; a list with at most one elastic entry does not
fail. -/
theorem load_layers_second_elastic (fn : String) (entries : List RawLayer) :
    (∀ (j1 j2 : Nat) (tl : List Nat), elasticIdxs entries = j1 :: j2 :: tl →
      load_layers fn (some entries) =
        Except.error (fn ++ " #" ++ toString j2 ++ ": " ++
          "only one resizeable layer allowed")) ∧
    ((elasticIdxs entries).length ≤ 1 →
      (load_layers fn (some entries)).toOption.isSome = true) := by
  constructor
  · intro j1 j2 tl h
    have herr := go_err_second fn entries 1 0 j1 j2 tl h
    simp [load_layers, herr]
  · intro h
    obtain ⟨ls, hls⟩ := go_ok_false fn entries 1 0 h
    simp [load_layers, hls, Except.toOption]

/-- Witness for C2: the list `[stone 4, dirt -1, sand 2, water -1]` has
its second elastic entry at index 4 and fails there inside field
`"layers"`; the one-elastic list `[dirt -1, sand 2]` loads in field
`"sea_layers"`. -/
theorem load_layers_second_elastic_witness :
    load_layers "layers" (some [⟨"stone", 4, true⟩, ⟨"dirt", -1, true⟩,
        ⟨"sand", 2, true⟩, ⟨"water", -1, true⟩]) =
      Except.error ("layers" ++ " #" ++ toString 4 ++ ": " ++
        "only one resizeable layer allowed") ∧
    (load_layers "sea_layers"
      (some [⟨"dirt", -1, true⟩, ⟨"sand", 2, true⟩])).toOption.isSome = true :=
  ⟨(load_layers_second_elastic "layers" [⟨"stone", 4, true⟩, ⟨"dirt", -1, true⟩,
      ⟨"sand", 2, true⟩, ⟨"water", -1, true⟩]).1 2 4 [] (by decide),
   (load_layers_second_elastic "sea_layers"
      [⟨"dirt", -1, true⟩, ⟨"sand", 2, true⟩]).2 (by decide)⟩

/-- The ground-layer list of the spec's `"plains"` scenario:
`[{"grass",1},{"dirt",-1},{"stone",20}]`. -/
def plainsGroundRaw : List RawLayer :=
  [⟨"grass", 1, true⟩, ⟨"dirt", -1, true⟩, ⟨"stone", 20, true⟩]

/-- Claim C3 (amended): for every successfully loaded layer list the
recorded `totalFixedHeight` equals the sum of the heights of the layers
after the first elastic one reduced modulo `2^32` (the field is a C++
`uint`; the two agree whenever that sum is a nonnegative integer below
`2^32`); and the spec's `"plains"` ground scenario loads with 3 layers,
the dirt layer elastic, and `totalFixedHeight = 20`. -/
theorem load_layers_totalFixedHeight :
    (∀ (fn : String) (entries : List RawLayer) (b : BlocksLayers),
      load_layers fn (some entries) = Except.ok b →
      (b.lastLayersHeight : Int) =
        (afterFirstElastic entries).sum % 4294967296) ∧
    load_layers "layers" (some plainsGroundRaw) =
      Except.ok ⟨[⟨"grass", 1, true, none⟩, ⟨"dirt", -1, true, none⟩,
        ⟨"stone", 20, true, none⟩], 20⟩ := by
  constructor
  · intro fn entries b hb
    cases hgo : load_layers_go fn entries 1 0 false with
    | error msg => simp [load_layers, hgo] at hb
    | ok p =>
      obtain ⟨ls, v⟩ := p
      have hv := go_ok_llh fn entries 1 0 ls v hgo
      simp [load_layers, hgo] at hb
      have hsum := foldl_addUint32_eq (afterFirstElastic entries) 0 (by norm_num)
      rw [← hb, hv]
      simpa using hsum
  · decide

/-- Witness for C3 at the `"plains"` ground scenario. -/
theorem load_layers_totalFixedHeight_witness :
    (((⟨[⟨"grass", 1, true, none⟩, ⟨"dirt", -1, true, none⟩,
        ⟨"stone", 20, true, none⟩], 20⟩ : BlocksLayers).lastLayersHeight : Int)) =
      (afterFirstElastic plainsGroundRaw).sum % 4294967296 :=
  load_layers_totalFixedHeight.1 "layers" plainsGroundRaw
    ⟨[⟨"grass", 1, true, none⟩, ⟨"dirt", -1, true, none⟩,
      ⟨"stone", 20, true, none⟩], 20⟩ (by decide)

/-- Counterexample to C3 as literally stated: the list
`[{"a",-1},{"b",-5}]` loads successfully (a height of `-5` is not the
elastic sentinel), yet `totalFixedHeight` is the `uint` wraparound value
`4294967291`, not the sum `-5` of the heights after the elastic layer. -/
theorem load_layers_totalFixedHeight_cx :
    load_layers "layers" (some [⟨"a", -1, true⟩, ⟨"b", -5, true⟩]) =
      Except.ok ⟨[⟨"a", -1, true, none⟩, ⟨"b", -5, true, none⟩], 4294967291⟩ ∧
    (afterFirstElastic [⟨"a", -1, true⟩, ⟨"b", -5, true⟩]).sum = -5 ∧
    ((4294967291 : Nat) : Int) ≠ -5 := by
  refine ⟨by decide, by decide, by decide⟩

/-! ### Biome loading (`load_biome`) and the definition loader
(`scripting::load_generator`) -/

/-- A raw biome entry as `load_biome` reads it: a `parameters` table of
already-typed `{value, weight}` entries (each read by
`require_number_field`), and optional `layers` / `sea_layers` tables
(read by `lua::getfield`, which reports absence instead of failing). -/
structure RawBiome where
  parameters : List BiomeParameter
  layers : Option (List RawLayer)
  sea_layers : Option (List RawLayer)
  deriving DecidableEq

/-- `load_biome(L, name, parametersCount, idx)`: the parameters vector is
constructed with `parametersCount` value-initialized entries
(`std::vector<BiomeParameter> parameters(parametersCount)`), the
`parameters` table must have at least `parametersCount` entries (else
`"<n> parameters expected"`), and the first `parametersCount` raw
entries are then appended with `push_back`; the ground and sea stacks
are loaded via `load_layers`, any error of which is rethrown as
`biome <name>: <cause>`. -/
def load_biome (name : String) (parametersCount : Nat) (raw : RawBiome) :
    Except String Biome :=
  let parameters0 : List BiomeParameter :=
    List.replicate parametersCount ⟨0, 0⟩
  if raw.parameters.length < parametersCount then
    Except.error (toString parametersCount ++ " parameters expected")
  else
    let parameters := parameters0 ++ raw.parameters.take parametersCount
    match load_layers "layers" raw.layers with
    | Except.error msg => Except.error ("biome " ++ name ++ ": " ++ msg)
    | Except.ok groundLayers =>
      match load_layers "sea_layers" raw.sea_layers with
      | Except.error msg => Except.error ("biome " ++ name ++ ": " ++ msg)
      | Except.ok seaLayers =>
        Except.ok ⟨name, parameters, groundLayers, seaLayers⟩

/-- A raw generator definition as `scripting::load_generator` reads it
after executing the script: the two optional integer globals and the
`biomes` table as a keyed sequence in iteration order. -/
structure RawGenerator where
  biome_parameters : Option Int
  sea_level : Option Int
  biomes : List (String × RawBiome)

/-- Modelled from the spec: `lua::get_integer_field(L, name, def, min,
max)` lives in the Lua engine outside the analyzed slice; the spec
describes it as reading an integer global with a default, clamped to the
given bounds. -/
def get_integer_field (v : Option Int) (dflt lo hi : Int) : Int :=
  max lo (min (v.getD dflt) hi)

/-- Modelled from the spec: the `CHUNK_H` constant (the world column
height bounding `sea_level`) is defined outside the analyzed slice. -/
def CHUNK_H : Int := 256

/-- The biome-table loop of `scripting::load_generator`: each entry's
key is the biome name; `load_biome` errors are rethrown as
`biome <name>: <cause>`. -/
def load_generator_biomes (parametersCount : Nat) :
    List (String × RawBiome) → Except String (List Biome)
  | [] => Except.ok []
  | (nm, rb) :: rest =>
    match load_biome nm parametersCount rb with
    | Except.error msg => Except.error ("biome " ++ nm ++ ": " ++ msg)
    | Except.ok b =>
      match load_generator_biomes parametersCount rest with
      | Except.error msg => Except.error msg
      | Except.ok bs => Except.ok (b :: bs)

/-- `scripting::load_generator(file)`: reads `biome_parameters`
(default 0, clamped 0..16) and `sea_level` (default 0, clamped
0..`CHUNK_H`), loads the biome table, and constructs the
`LuaGeneratorScript` over the environment the script was executed in. -/
def load_generator (env : ScriptEnv) (raw : RawGenerator) :
    Except String LuaGeneratorScript :=
  let biomeParameters := (get_integer_field raw.biome_parameters 0 0 16).toNat
  let seaLevel := (get_integer_field raw.sea_level 0 0 CHUNK_H).toNat
  match load_generator_biomes biomeParameters raw.biomes with
  | Except.error msg => Except.error msg
  | Except.ok biomes => Except.ok ⟨env, biomes, biomeParameters, seaLevel⟩

lemma load_layers_ok (fn : String) (field : Option (List RawLayer))
    (h : (elasticIdxs (field.getD [])).length ≤ 1) :
    ∃ b, load_layers fn field = Except.ok b := by
  cases field with
  | none => exact ⟨⟨[], 0⟩, rfl⟩
  | some entries =>
    obtain ⟨ls, hls⟩ :=
      go_ok_false fn entries 1 0 (by simpa [elasticIdxs] using h)
    exact ⟨⟨ls, List.foldl addUint32 0 (afterFirstElastic entries)⟩,
      by simp [load_layers, hls]⟩

/-! ### Claims about `load_biome` and `load_generator` -/

/-- The raw `"plains"` biome of the spec's scenario:
`biome_parameters = 2`, parameters `[{0.5,1.0},{0.3,1.0}]`, ground
layers `[{"grass",1},{"dirt",-1},{"stone",20}]`. -/
def plainsRaw : RawBiome :=
  ⟨[⟨1/2, 1⟩, ⟨3/10, 1⟩], some plainsGroundRaw, none⟩

/-- Claim C4 (code bug): with a global count of 2 and a well-formed
2-entry parameters table, the loaded biome's parameters sequence has
length 4, not 2: the C++ constructs the vector pre-sized with
`parametersCount` value-initialized entries and then `push_back`s the
`parametersCount` parsed entries onto it. -/
theorem load_biome_parameters_length_bug :
    ((load_biome "plains" 2 plainsRaw).toOption.map
      fun b => b.parameters.length) = some 4 ∧ (4 : Nat) ≠ 2 :=
  ⟨by decide, by decide⟩

/-- A raw generator definition with one biome `"plains"` whose ground
layer list declares two elastic layers. -/
def doubleElasticGen : RawGenerator :=
  ⟨none, none, [("plains", ⟨[], some [⟨"a", -1, true⟩, ⟨"b", -1, true⟩], none⟩)]⟩

/-- Claim C5 (code bug): a layer-validation error is annotated with the
owning biome's name twice, not once — `load_biome` wraps it with
`biome plains: ` and `load_generator`'s biome loop wraps the already
prefixed message again. -/
theorem load_generator_double_wrap :
    load_generator ⟨none⟩ doubleElasticGen =
      Except.error
        "biome plains: biome plains: layers #2: only one resizeable layer allowed" := by
  rfl

/-- Counterexample to C9 as stated: a biome entry lacking the `layers`
field loads successfully with an empty ground stack (the C++ reads the
field with `lua::getfield`, which merely reports absence, not with
`lua::requirefield`). -/
theorem load_biome_no_ground_cx :
    load_biome "plains" 0 ⟨[], none, none⟩ =
      Except.ok ⟨"plains", [], ⟨[], 0⟩, ⟨[], 0⟩⟩ := by
  decide

/-- Claim C9 (amended): the ground `layers` field is optional exactly
like `sea_layers`; a biome entry lacking `layers` loads (when its other
fields are valid) and its ground stack is empty. -/
theorem load_biome_layers_optional (name : String) (cnt : Nat)
    (raw : RawBiome) (h1 : raw.layers = none)
    (h2 : cnt ≤ raw.parameters.length)
    (h3 : (elasticIdxs (raw.sea_layers.getD [])).length ≤ 1) :
    ((load_biome name cnt raw).toOption.map fun b => b.groundLayers) =
      some ⟨[], 0⟩ := by
  obtain ⟨sb, hsb⟩ := load_layers_ok "sea_layers" raw.sea_layers h3
  simp [load_biome, h1, hsb, Except.toOption, Nat.not_lt.mpr h2,
    show load_layers "layers" none = Except.ok ⟨[], 0⟩ from rfl]

/-- Witness for C9 at a concrete biome entry with no `layers` field. -/
theorem load_biome_layers_optional_witness :
    ((load_biome "desert" 1 ⟨[⟨1, 1⟩], none, some [⟨"sand", 2, true⟩]⟩).toOption.map
      fun b => b.groundLayers) = some ⟨[], 0⟩ :=
  load_biome_layers_optional "desert" 1 ⟨[⟨1, 1⟩], none, some [⟨"sand", 2, true⟩]⟩
    (by decide) (by decide) (by decide)

/-- Claim C10: the one-elastic-layer restriction is scoped per stack:
a biome whose ground list has exactly one elastic entry and whose sea
list also has exactly one elastic entry loads successfully — the
`lastLayersHeight` / `hasResizeableLayer` state is initialized afresh in
each `load_layers` call. -/
theorem load_biome_elastic_per_stack (name : String) (cnt : Nat)
    (raw : RawBiome)
    (h1 : (elasticIdxs (raw.layers.getD [])).length = 1)
    (h2 : (elasticIdxs (raw.sea_layers.getD [])).length = 1)
    (h3 : cnt ≤ raw.parameters.length) :
    (load_biome name cnt raw).toOption.isSome = true := by
  obtain ⟨gb, hgb⟩ := load_layers_ok "layers" raw.layers (le_of_eq h1)
  obtain ⟨sb, hsb⟩ := load_layers_ok "sea_layers" raw.sea_layers (le_of_eq h2)
  simp [load_biome, hgb, hsb, Except.toOption, Nat.not_lt.mpr h3]

/-- Witness for C10 at a biome with one elastic ground layer and one
elastic sea layer. -/
theorem load_biome_elastic_per_stack_witness :
    (load_biome "plains" 0
      ⟨[], some [⟨"grass", 1, true⟩, ⟨"dirt", -1, true⟩],
        some [⟨"water", -1, true⟩]⟩).toOption.isSome = true :=
  load_biome_elastic_per_stack "plains" 0
    ⟨[], some [⟨"grass", 1, true⟩, ⟨"dirt", -1, true⟩],
      some [⟨"water", -1, true⟩]⟩ (by decide) (by decide) (by decide)

/-! ### Block-id binding (`LuaGeneratorScript::prepare`) -/

/-- The content registry as `prepare` observes it: block name to runtime
id (`content->blocks.require(name).rt.id`), `none` when the name is
absent and `require` throws. -/
abbrev BlockRegistry := String → Option Nat

/-- The inner loop of `prepare` over one layer list: each layer's
`rt.id` is assigned in place in order; a missing name makes `require`
throw, leaving the current and all later layers untouched.  The error
payload of `require` lives outside the analyzed slice (the spec's
`BindError`). -/
def prepareLayersRun (reg : BlockRegistry) :
    List BlocksLayer → Option String × List BlocksLayer
  | [] => (none, [])
  | l :: rest =>
    match reg l.block with
    | none => (some ("missing block " ++ l.block), l :: rest)
    | some id =>
      let r := prepareLayersRun reg rest
      (r.1, { l with rtId := some id } :: r.2)

/-- `prepare` on one biome: ground layers first, then sea layers; an
exception from the ground pass leaves the sea pass untouched. -/
def prepareBiomeRun (reg : BlockRegistry) (b : Biome) :
    Option String × Biome :=
  match prepareLayersRun reg b.groundLayers.layers with
  | (some e, gl) =>
    (some e, { b with groundLayers := ⟨gl, b.groundLayers.lastLayersHeight⟩ })
  | (none, gl) =>
    let s := prepareLayersRun reg b.seaLayers.layers
    (s.1, ⟨b.name, b.parameters, ⟨gl, b.groundLayers.lastLayersHeight⟩,
      ⟨s.2, b.seaLayers.lastLayersHeight⟩⟩)

/-- `LuaGeneratorScript::prepare(content)`: the biome list is traversed
in order, mutating layers in place; the first missing block name aborts
the traversal, with all mutations made so far retained.  The returned
pair is (thrown error, biome list after the call). -/
def prepareRun (reg : BlockRegistry) : List Biome → Option String × List Biome
  | [] => (none, [])
  | b :: rest =>
    match prepareBiomeRun reg b with
    | (some e, b1) => (some e, b1 :: rest)
    | (none, b1) =>
      let r := prepareRun reg rest
      (r.1, b1 :: r.2)

/-- Spec-side description of a fully bound layer: its runtime id is the
registry's id for its block name. -/
def resolveLayer (reg : BlockRegistry) (l : BlocksLayer) : BlocksLayer :=
  { l with rtId := reg l.block }

/-- Spec-side description of a fully bound biome. -/
def resolveBiome (reg : BlockRegistry) (b : Biome) : Biome :=
  ⟨b.name, b.parameters,
    ⟨b.groundLayers.layers.map (resolveLayer reg),
      b.groundLayers.lastLayersHeight⟩,
    ⟨b.seaLayers.layers.map (resolveLayer reg),
      b.seaLayers.lastLayersHeight⟩⟩

/-- Spec-side description of a fully bound biome catalog. -/
def resolveAll (reg : BlockRegistry) (biomes : List Biome) : List Biome :=
  biomes.map (resolveBiome reg)

lemma prepLayers_ok (reg : BlockRegistry) (ls : List BlocksLayer)
    (h : ∀ l ∈ ls, (reg l.block).isSome) :
    prepareLayersRun reg ls = (none, ls.map (resolveLayer reg)) := by
  induction ls with
  | nil => rfl
  | cons l rest ih =>
    obtain ⟨id, hid⟩ := Option.isSome_iff_exists.mp (h l (by simp))
    have hrest := ih (fun x hx => h x (by simp [hx]))
    simp [prepareLayersRun, hid, hrest, resolveLayer]

lemma prepBiome_ok (reg : BlockRegistry) (b : Biome)
    (hg : ∀ l ∈ b.groundLayers.layers, (reg l.block).isSome)
    (hs : ∀ l ∈ b.seaLayers.layers, (reg l.block).isSome) :
    prepareBiomeRun reg b = (none, resolveBiome reg b) := by
  simp [prepareBiomeRun, prepLayers_ok reg _ hg, prepLayers_ok reg _ hs,
    resolveBiome]

lemma prepare_ok (reg : BlockRegistry) (biomes : List Biome)
    (h : ∀ b ∈ biomes, (∀ l ∈ b.groundLayers.layers, (reg l.block).isSome) ∧
      (∀ l ∈ b.seaLayers.layers, (reg l.block).isSome)) :
    prepareRun reg biomes = (none, resolveAll reg biomes) := by
  induction biomes with
  | nil => rfl
  | cons b rest ih =>
    obtain ⟨hg, hs⟩ := h b (by simp)
    have hrest := ih (fun x hx => h x (by simp [hx]))
    simp [prepareRun, prepBiome_ok reg b hg hs, hrest, resolveAll]

lemma resolveLayer_idem (reg : BlockRegistry) (l : BlocksLayer) :
    resolveLayer reg (resolveLayer reg l) = resolveLayer reg l := rfl

lemma resolveAll_idem (reg : BlockRegistry) (biomes : List Biome) :
    resolveAll reg (resolveAll reg biomes) = resolveAll reg biomes := by
  simp only [resolveAll, List.map_map]
  apply List.map_congr_left
  intro b _
  simp [Function.comp, resolveBiome, List.map_map]
  constructor <;> intro l _ <;> exact resolveLayer_idem reg l

lemma resolve_pred (reg : BlockRegistry) (biomes : List Biome)
    (h : ∀ b ∈ biomes, (∀ l ∈ b.groundLayers.layers, (reg l.block).isSome) ∧
      (∀ l ∈ b.seaLayers.layers, (reg l.block).isSome)) :
    ∀ b ∈ resolveAll reg biomes,
      (∀ l ∈ b.groundLayers.layers, (reg l.block).isSome) ∧
      (∀ l ∈ b.seaLayers.layers, (reg l.block).isSome) := by
  intro b hb
  simp only [resolveAll, List.mem_map] at hb
  obtain ⟨b0, hb0, rfl⟩ := hb
  obtain ⟨hg, hs⟩ := h b0 hb0
  constructor <;> intro l hl
  · simp only [resolveBiome, List.mem_map] at hl
    obtain ⟨l0, hl0, rfl⟩ := hl
    simpa [resolveLayer] using hg l0 hl0
  · simp only [resolveBiome, List.mem_map] at hl
    obtain ⟨l0, hl0, rfl⟩ := hl
    simpa [resolveLayer] using hs l0 hl0

/-- Claim C7: when the registry contains every referenced block name,
`prepare` succeeds and binds every ground and sea layer's runtime id to
the registry's id for that layer's block name (result `resolveAll`), and
a second `prepare` with the same registry leaves all resolved ids
unchanged. -/
theorem prepare_resolves_idempotent (reg : BlockRegistry)
    (biomes : List Biome)
    (h : ∀ b ∈ biomes, (∀ l ∈ b.groundLayers.layers, (reg l.block).isSome) ∧
      (∀ l ∈ b.seaLayers.layers, (reg l.block).isSome)) :
    prepareRun reg biomes = (none, resolveAll reg biomes) ∧
    prepareRun reg (resolveAll reg biomes) =
      (none, resolveAll reg biomes) := by
  refine ⟨prepare_ok reg biomes h, ?_⟩
  rw [prepare_ok reg (resolveAll reg biomes) (resolve_pred reg biomes h),
    resolveAll_idem]

/-- A one-biome catalog whose ground stack references `grass` and
`stone`, with ids still unresolved. -/
def c8Biome : Biome :=
  ⟨"plains", [], ⟨[⟨"grass", 1, true, none⟩, ⟨"stone", 20, true, none⟩], 0⟩,
    ⟨[], 0⟩⟩

/-- A registry that knows `grass` (id 7) but not `stone`. -/
def c8Registry : BlockRegistry :=
  fun s => if s = "grass" then some 7 else none

/-- A registry that knows both blocks of `c8Biome`. -/
def c7Registry : BlockRegistry :=
  fun s => if s = "grass" then some 7 else if s = "stone" then some 9 else none

/-- Witness for C7 at the concrete one-biome catalog and a registry
containing both referenced names. -/
theorem prepare_resolves_idempotent_witness :
    prepareRun c7Registry [c8Biome] = (none, resolveAll c7Registry [c8Biome]) ∧
    prepareRun c7Registry (resolveAll c7Registry [c8Biome]) =
      (none, resolveAll c7Registry [c8Biome]) :=
  prepare_resolves_idempotent c7Registry [c8Biome] (by decide)

/-- Counterexample to C8 as stated: with `stone` missing from the
registry, `prepare` fails, but the binding is not all-or-nothing: the
`grass` layer's runtime id has already been changed from unset to 7 when
the failure is raised. -/
theorem prepare_partial_binding_cx :
    (prepareRun c8Registry [c8Biome]).1.isSome = true ∧
    ((prepareRun c8Registry [c8Biome]).2.map
      fun b => b.groundLayers.layers.map BlocksLayer.rtId) = [[some 7, none]] ∧
    c8Biome.groundLayers.layers.map BlocksLayer.rtId = [none, none] := by
  refine ⟨by decide, by decide, by decide⟩

lemma prepLayers_missing (reg : BlockRegistry) (ls : List BlocksLayer)
    (h : ∃ l ∈ ls, reg l.block = none) :
    (prepareLayersRun reg ls).1.isSome = true := by
  induction ls with
  | nil => simp at h
  | cons l rest ih =>
    obtain ⟨x, hx, hnone⟩ := h
    by_cases hl : reg l.block = none
    · simp [prepareLayersRun, hl]
    · obtain ⟨id, hid⟩ := Option.ne_none_iff_exists'.mp hl
      have hx' : x ∈ rest := by
        rcases List.mem_cons.mp hx with h1 | h1
        · exact absurd (h1 ▸ hnone) hl
        · exact h1
      have hrest := ih ⟨x, hx', hnone⟩
      simpa [prepareLayersRun, hid] using hrest

lemma prepBiome_missing (reg : BlockRegistry) (b : Biome)
    (h : (∃ l ∈ b.groundLayers.layers, reg l.block = none) ∨
      (∃ l ∈ b.seaLayers.layers, reg l.block = none)) :
    (prepareBiomeRun reg b).1.isSome = true := by
  cases hg : prepareLayersRun reg b.groundLayers.layers with
  | mk e gl =>
    cases e with
    | some msg => simp [prepareBiomeRun, hg]
    | none =>
      rcases h with h | h
      · have := prepLayers_missing reg b.groundLayers.layers h
        rw [hg] at this
        simp at this
      · have := prepLayers_missing reg b.seaLayers.layers h
        simpa [prepareBiomeRun, hg] using this

/-- Claim C8 (amended): when the registry is missing at least one block
name referenced by some layer, `prepare` fails; the binding is not
all-or-nothing (layers processed before the failure keep their new ids,
as the counterexample shows), but the raised error aborts content load. -/
theorem prepare_missing_fails (reg : BlockRegistry) (biomes : List Biome)
    (h : ∃ b ∈ biomes, (∃ l ∈ b.groundLayers.layers, reg l.block = none) ∨
      (∃ l ∈ b.seaLayers.layers, reg l.block = none)) :
    (prepareRun reg biomes).1.isSome = true := by
  induction biomes with
  | nil => simp at h
  | cons b rest ih =>
    obtain ⟨x, hx, hmiss⟩ := h
    cases hb : prepareBiomeRun reg b with
    | mk e b1 =>
      cases e with
      | some msg => simp [prepareRun, hb]
      | none =>
        have hx' : x ∈ rest := by
          rcases List.mem_cons.mp hx with h1 | h1
          · subst h1
            have := prepBiome_missing reg x hmiss
            rw [hb] at this
            simp at this
          · exact h1
        have hrest := ih ⟨x, hx', hmiss⟩
        simpa [prepareRun, hb] using hrest

/-- Witness for C8 (amended) at the concrete catalog whose `stone`
reference is missing from the registry. -/
theorem prepare_missing_fails_witness :
    (prepareRun c8Registry [c8Biome]).1.isSome = true :=
  prepare_missing_fails c8Registry [c8Biome] (by decide)

end VoxelGen
